import Mathlib

/-!
# Verification of the RepoThread proxy/poller codebase

Shallow embedding of the two Next.js route handlers
(src/app/api/analyze/route.ts and src/app/api/convert-thread/route.ts)
and of the client-side job poller (src/app/page.tsx), together with
theorems settling the specification claims about them.

JavaScript conventions carried into the model:
* a possibly-absent JSON field is an Option; a missing field, a null
  value and the empty string are all falsy for a string field, and 0 is
  falsy for a number field;
* the JS expression x || d is modelled by jsOrElse / jsOrInt;
* string concatenation with a possibly-undefined value is modelled by
  jsShow, which renders an absent value as "undefined".
-/

namespace RepoThread

/-- JS truthiness test for an optional string field: a missing field and
the empty string are both falsy (models the checks such as !repoUrl). -/
def jsFalsy : Option String → Bool
  | none => true
  | some s => s.isEmpty

/-- Models the JS expression o || d for a string-valued o: the default is
taken when o is absent or the empty string. -/
def jsOrElse : Option String → String → String
  | none, d => d
  | some s, d => if s.isEmpty then d else s

/-- Models the JS expression o || d for a number-valued o: the default is
taken when o is absent or 0. -/
def jsOrInt : Option Int → Int → Int
  | none, d => d
  | some n, d => if n = 0 then d else n

/-- Models JS coercion of a possibly-undefined string to a string, as in
the concatenation in the thrown message Job failed: plus data.result. -/
def jsShow : Option String → String
  | none => "undefined"
  | some s => s

/-- Body sent on the outbound call to the external FastAPI service. -/
inductive OutboundBody where
  | analyzeBody (repo_url : String)
  | convertBody (blog_content : String) (num_tweets : Int)
  | noBody
  deriving DecidableEq, Repr

/-- One outbound HTTP call made by a route handler. -/
structure OutboundRequest where
  url : String
  body : OutboundBody
  deriving DecidableEq, Repr

/-- Outcome of the outbound fetch, as observed by the route handler.
ok: 2xx with a JSON body (the handler forwards it verbatim);
okBadBody: 2xx whose body fails to parse as JSON, so response.json()
throws with the given message;
httpError: non-2xx; the detail field of the backend error body when the
body parsed as JSON and had one, none otherwise;
reject: the fetch promise itself rejected (network failure, a runtime
abort or timeout, DNS error, ...) with the given error message. -/
inductive UpstreamResult where
  | ok (data : String)
  | okBadBody (msg : String)
  | httpError (detail : Option String)
  | reject (msg : String)
  deriving DecidableEq, Repr

/-- Body of the response a route handler sends to the browser:
either the backend success body passed through by NextResponse.json(data),
or the normalized envelope with a single error string. -/
inductive ResponseBody where
  | passthrough (data : String)
  | errorEnvelope (error : String)
  deriving DecidableEq, Repr

/-- HTTP response produced by a route handler. -/
structure ApiResponse where
  status : Nat
  body : ResponseBody
  deriving DecidableEq, Repr

/-- A complete run of a route handler: the response it returns and the
list of outbound calls it made (empty when it answered before calling
the external service). -/
structure HandlerRun where
  response : ApiResponse
  outboundCalls : List OutboundRequest
  deriving DecidableEq, Repr

/-- Result of await request.json() on the inbound request: either the
parsed body, or a parse failure (which the catch block turns into a 500). -/
inductive Inbound (α : Type) where
  | badJson (msg : String)
  | parsed (body : α)

/-- Parsed inbound body of POST /api/analyze. -/
structure AnalyzeBody where
  repoUrl : Option String

/-- Parsed inbound body of POST /api/convert-thread. -/
structure ConvertBody where
  blog : Option String
  numTweets : Option Int

/-- Shared tail of every handler (route.ts lines 19-41 and the GET
analogue): make the outbound call; on !response.ok throw
Error(errorData?.detail || genericMsg); on a 2xx parse failure or a fetch
rejection the thrown error propagates; the catch block answers 500 with
the envelope Internal server error: plus the message. -/
def forward (call : OutboundRequest) (genericMsg : String)
    (upstream : UpstreamResult) : HandlerRun :=
  match upstream with
  | .ok data => ⟨⟨200, .passthrough data⟩, [call]⟩
  | .okBadBody msg =>
      ⟨⟨500, .errorEnvelope ("Internal server error: " ++ msg)⟩, [call]⟩
  | .httpError detail =>
      ⟨⟨500, .errorEnvelope
          ("Internal server error: " ++ jsOrElse detail genericMsg)⟩, [call]⟩
  | .reject msg =>
      ⟨⟨500, .errorEnvelope ("Internal server error: " ++ msg)⟩, [call]⟩

/-- Embeds POST of src/app/api/analyze/route.ts (lines 6-42): parse the
body, reject a falsy repoUrl with 400 before any outbound call, otherwise
forward { repo_url: repoUrl } to apiUrl/analyze. -/
def analyzePOST (apiUrl : String) (inb : Inbound AnalyzeBody)
    (upstream : UpstreamResult) : HandlerRun :=
  match inb with
  | .badJson msg =>
      ⟨⟨500, .errorEnvelope ("Internal server error: " ++ msg)⟩, []⟩
  | .parsed body =>
      if jsFalsy body.repoUrl then
        ⟨⟨400, .errorEnvelope "Repository URL is required"⟩, []⟩
      else
        forward ⟨apiUrl ++ "/analyze", .analyzeBody (jsShow body.repoUrl)⟩
          "Failed to analyze repository" upstream

/-- Embeds POST of src/app/api/convert-thread/route.ts (lines 6-45):
parse the body, reject a falsy blog with 400 before any outbound call,
otherwise forward { blog_content: blog, num_tweets: numTweets || 14 }
to apiUrl/convert. -/
def convertPOST (apiUrl : String) (inb : Inbound ConvertBody)
    (upstream : UpstreamResult) : HandlerRun :=
  match inb with
  | .badJson msg =>
      ⟨⟨500, .errorEnvelope ("Internal server error: " ++ msg)⟩, []⟩
  | .parsed body =>
      if jsFalsy body.blog then
        ⟨⟨400, .errorEnvelope "Blog content is required"⟩, []⟩
      else
        forward ⟨apiUrl ++ "/convert",
            .convertBody (jsShow body.blog) (jsOrInt body.numTweets 14)⟩
          "Failed to convert blog to thread" upstream

/-- Embeds GET of src/app/api/analyze/route.ts (lines 44-75) and the
textually identical GET of src/app/api/convert-thread/route.ts (lines
47-78): reject a falsy jobId query parameter with 400 before any
outbound call, otherwise forward to apiUrl/jobs/jobId. -/
def jobStatusGET (apiUrl : String) (jobId : Option String)
    (upstream : UpstreamResult) : HandlerRun :=
  match jobId with
  | none => ⟨⟨400, .errorEnvelope "Job ID is required"⟩, []⟩
  | some j =>
      if j.isEmpty then
        ⟨⟨400, .errorEnvelope "Job ID is required"⟩, []⟩
      else
        forward ⟨apiUrl ++ "/jobs/" ++ j, .noBody⟩
          "Failed to get job status" upstream

/-! ## Client-side poller (src/app/page.tsx) -/

/-- The two operation kinds the poller distinguishes. -/
inductive OpKind where
  | analyze
  | convert
  deriving DecidableEq, Repr

/-- The client UI state held in the useState hooks of page.tsx that the
submitter and poller touch. A field of type Option String is none when the
JS value is undefined (e.g. blog after setBlog(data.result) with an absent
result) and some s when it is the string s. -/
structure ClientState where
  blog : Option String
  thread : Option String
  loading : Bool
  error : String
  jobId : String
  progress : String
  deriving DecidableEq, Repr

/-- Initial values of the useState hooks (page.tsx lines 6-12). -/
def initialState : ClientState :=
  { blog := some "", thread := some "", loading := false,
    error := "", jobId := "", progress := "" }

/-- Parsed JSON body of a status-query response as the poller reads it:
the status, result and error fields, each possibly absent. -/
structure StatusBody where
  status : Option String
  result : Option String
  error : Option String
  deriving DecidableEq, Repr

/-- Outcome of one status query as observed inside pollJobStatus:
reject covers a rejected fetch or a response.json() failure (both throw
before the ok test, since the body is parsed first); resp carries
response.ok and the parsed body. -/
inductive StatusQueryOutcome where
  | reject (msg : String)
  | resp (ok : Bool) (body : StatusBody)
  deriving DecidableEq, Repr

/-- A callback registered with setTimeout: after delay milliseconds run
pollJobStatus on the given job id and kind. -/
structure ScheduledPoll where
  delay : Nat
  id : String
  kind : OpKind
  deriving DecidableEq, Repr

/-- Progress label written while a job is pending (page.tsx line 36). -/
def progressLabel : OpKind → String
  | .analyze => "Analyzing repository..."
  | .convert => "Converting to thread..."

/-- State written by the catch block of pollJobStatus (lines 43-49):
loading off, progress cleared, error message surfaced, jobId cleared. -/
def pollFail (s : ClientState) (msg : String) : ClientState :=
  { s with loading := false, progress := "", error := msg, jobId := "" }

/-- Embeds one iteration of pollJobStatus (page.tsx lines 14-50), given
the outcome of its status query. Returns the updated UI state and the
list of polls the iteration registered with setTimeout. -/
def pollJobStatus (s : ClientState) (id : String) (kind : OpKind) :
    StatusQueryOutcome → ClientState × List ScheduledPoll
  | .reject msg => (pollFail s msg, [])
  | .resp false body =>
      (pollFail s (jsOrElse body.error "Failed to get job status"), [])
  | .resp true body =>
      if body.status = some "completed" then
        (match kind with
          | .analyze =>
              { s with loading := false, progress := "", blog := body.result, jobId := "" }
          | .convert =>
              { s with loading := false, progress := "", thread := body.result, jobId := "" },
         [])
      else if body.status = some "pending" then
        ({ s with progress := progressLabel kind }, [⟨5000, id, kind⟩])
      else
        (pollFail s ("Job failed: " ++ jsShow body.result), [])

/-- The browser world: the UI state plus the setTimeout callbacks that
are registered but have not fired yet. Nothing in page.tsx ever clears
this queue: there is no clearTimeout and no cancellation token. -/
structure World where
  client : ClientState
  scheduled : List ScheduledPoll
  deriving DecidableEq, Repr

/-- Outcome of a submission request as observed by handleSubmit /
handleConvertToThread: ok carries data.job_id; fail carries the thrown
message (data.error || the generic fallback, or the rejection message). -/
inductive SubmitOutcome where
  | ok (jobId : String)
  | fail (msg : String)
  deriving DecidableEq, Repr

/-- Embeds handleSubmit (page.tsx lines 52-82): reset error/results, set
loading and the starting progress label, then on success record the job
id and start polling it (the first pollJobStatus call is an immediate
asynchronous call, modelled as a delay-0 scheduled poll). Previously
registered polls are left untouched. -/
def handleSubmit (w : World) (outcome : SubmitOutcome) : World :=
  let s1 := { w.client with
              error := "", loading := true, progress := "Starting analysis...",
              blog := some "", thread := some "" }
  match outcome with
  | .ok j =>
      { client := { s1 with jobId := j },
        scheduled := w.scheduled ++ [⟨0, j, .analyze⟩] }
  | .fail msg =>
      { client := { s1 with loading := false, progress := "", error := msg },
        scheduled := w.scheduled }

/-- Embeds handleConvertToThread (page.tsx lines 84-113): no-op when the
blog state is falsy, otherwise like handleSubmit but for the convert
endpoint and clearing only the thread. -/
def handleConvertToThread (w : World) (outcome : SubmitOutcome) : World :=
  if jsFalsy w.client.blog then w
  else
    let s1 := { w.client with
                error := "", loading := true, progress := "Starting conversion...",
                thread := some "" }
    match outcome with
    | .ok j =>
        { client := { s1 with jobId := j },
          scheduled := w.scheduled ++ [⟨0, j, .convert⟩] }
    | .fail msg =>
        { client := { s1 with loading := false, progress := "", error := msg },
          scheduled := w.scheduled }

/-- Fire the scheduled poll at position i with the given status-query
outcome: the callback is consumed and any poll it registers is appended. -/
def runScheduled (w : World) (i : Nat) (outcome : StatusQueryOutcome) : World :=
  match w.scheduled[i]? with
  | none => w
  | some t =>
      let r := pollJobStatus w.client t.id t.kind outcome
      { client := r.1, scheduled := w.scheduled.eraseIdx i ++ r.2 }

/-- Did this status-query outcome report a pending job? -/
def isPendingOutcome : StatusQueryOutcome → Bool
  | .resp true b => b.status = some "pending"
  | _ => false

/-- Did this status-query outcome report a completed job (the one case in
which the poller stores a result)? -/
def isCompletedOutcome : StatusQueryOutcome → Bool
  | .resp true b => b.status = some "completed"
  | _ => false

/-- Runs a poll chain for one job: each outcome in the list is consumed
by one iteration, and the chain continues exactly while the previous
iteration registered a follow-up poll. Returns the final UI state, the
number of status queries issued, and the number of iterations that
stored a result. This mirrors the real control flow: iteration N+1 is
the setTimeout callback created by iteration N, so it runs only after
iteration N has completed. -/
def pollChain (s : ClientState) (id : String) (kind : OpKind) :
    List StatusQueryOutcome → ClientState × Nat × Nat
  | [] => (s, 0, 0)
  | o :: os =>
      let r := pollJobStatus s id kind o
      match r.2 with
      | [] => (r.1, 1, if isCompletedOutcome o then 1 else 0)
      | _ :: _ =>
          let t := pollChain r.1 id kind os
          (t.1, t.2.1 + 1, t.2.2 + (if isCompletedOutcome o then 1 else 0))

/-! ## Theorems about the proxy handlers -/

/-- The normalization invariant on a handler run: the response is either
a 200 passthrough of the backend success body, or the error envelope with
a non-2xx status (400 or 500). -/
def normalizedRun (r : HandlerRun) : Prop :=
  ((∃ d, r.response.body = .passthrough d) ∧ r.response.status = 200) ∨
  ((∃ m, r.response.body = .errorEnvelope m) ∧
    (r.response.status = 400 ∨ r.response.status = 500))

theorem forward_normalized (call : OutboundRequest) (g : String)
    (up : UpstreamResult) : normalizedRun (forward call g up) := by
  cases up <;> simp [forward, normalizedRun]

theorem forward_calls (call : OutboundRequest) (g : String)
    (up : UpstreamResult) : (forward call g up).outboundCalls = [call] := by
  cases up <;> rfl

/-- C2: every proxy handler returns either a normalized success envelope
(the backend success body passed through, status 200) or the normalized
error envelope with a single error string and a non-2xx status (400 or
500) — never both and never neither (the two body shapes are mutually
exclusive constructors), so no raw backend error shape ever reaches the
client. -/
theorem proxy_responses_normalized (apiUrl : String)
    (inbA : Inbound AnalyzeBody) (inbC : Inbound ConvertBody)
    (jid : Option String) (upA upC upG : UpstreamResult) :
    normalizedRun (analyzePOST apiUrl inbA upA) ∧
    normalizedRun (convertPOST apiUrl inbC upC) ∧
    normalizedRun (jobStatusGET apiUrl jid upG) ∧
    (∀ b : ResponseBody,
      ¬ ((∃ d, b = .passthrough d) ∧ (∃ m, b = .errorEnvelope m))) := by
  refine ⟨?_, ?_, ?_, ?_⟩
  · cases inbA with
    | badJson msg => simp [analyzePOST, normalizedRun]
    | parsed body =>
        cases h : jsFalsy body.repoUrl with
        | true => simp [analyzePOST, h, normalizedRun]
        | false => simpa [analyzePOST, h] using forward_normalized _ _ upA
  · cases inbC with
    | badJson msg => simp [convertPOST, normalizedRun]
    | parsed body =>
        cases h : jsFalsy body.blog with
        | true => simp [convertPOST, h, normalizedRun]
        | false => simpa [convertPOST, h] using forward_normalized _ _ upC
  · cases jid with
    | none => simp [jobStatusGET, normalizedRun]
    | some j =>
        cases h : j.isEmpty with
        | true => simp [jobStatusGET, h, normalizedRun]
        | false => simpa [jobStatusGET, h] using forward_normalized _ _ upG
  · rintro b ⟨⟨d, hd⟩, ⟨m, hm⟩⟩
    subst hd
    exact ResponseBody.noConfusion hm

/-- C3: a missing or empty required field (repoUrl, blog, or jobId) is
rejected with HTTP 400 and the matching validation message, and the run
makes no outbound call at all (the outbound call list is empty), whatever
the external service would have answered. -/
theorem missing_field_rejected_before_outbound (apiUrl : String)
    (upA upC upG : UpstreamResult) (r b j : Option String) (nt : Option Int)
    (hr : jsFalsy r = true) (hb : jsFalsy b = true) (hj : jsFalsy j = true) :
    analyzePOST apiUrl (.parsed ⟨r⟩) upA =
      ⟨⟨400, .errorEnvelope "Repository URL is required"⟩, []⟩ ∧
    convertPOST apiUrl (.parsed ⟨b, nt⟩) upC =
      ⟨⟨400, .errorEnvelope "Blog content is required"⟩, []⟩ ∧
    jobStatusGET apiUrl j upG =
      ⟨⟨400, .errorEnvelope "Job ID is required"⟩, []⟩ := by
  refine ⟨?_, ?_, ?_⟩
  · simp [analyzePOST, hr]
  · simp [convertPOST, hb]
  · cases j with
    | none => rfl
    | some s =>
        simp only [jsFalsy] at hj
        simp [jobStatusGET, hj]

theorem missing_field_rejected_witness :
    analyzePOST "http://localhost:8000" (.parsed ⟨some ""⟩) (.ok "{}") =
      ⟨⟨400, .errorEnvelope "Repository URL is required"⟩, []⟩ ∧
    convertPOST "http://localhost:8000" (.parsed ⟨some "", some 5⟩) (.ok "{}") =
      ⟨⟨400, .errorEnvelope "Blog content is required"⟩, []⟩ ∧
    jobStatusGET "http://localhost:8000" none (.ok "{}") =
      ⟨⟨400, .errorEnvelope "Job ID is required"⟩, []⟩ :=
  missing_field_rejected_before_outbound "http://localhost:8000"
    (.ok "{}") (.ok "{}") (.ok "{}") (some "") (some "") none (some 5)
    (by decide) (by decide) (by decide)

/-- C8: on a non-2xx backend response the handlers answer HTTP 500 with
the message Internal server error: followed by the backend detail field
when one was supplied (the message carries the detail as a substring),
and by the endpoint-specific generic message when no detail was present. -/
theorem upstream_error_maps_to_500_with_detail (apiUrl u b : String)
    (nt : Option Int) (detail : Option String)
    (hu : u.isEmpty = false) (hb : b.isEmpty = false) :
    (analyzePOST apiUrl (.parsed ⟨some u⟩) (.httpError detail)).response =
      ⟨500, .errorEnvelope
        ("Internal server error: " ++ jsOrElse detail "Failed to analyze repository")⟩ ∧
    (convertPOST apiUrl (.parsed ⟨some b, nt⟩) (.httpError detail)).response =
      ⟨500, .errorEnvelope
        ("Internal server error: " ++ jsOrElse detail "Failed to convert blog to thread")⟩ ∧
    (∀ d g, detail = some d →
      ∃ pre post, "Internal server error: " ++ jsOrElse detail g = pre ++ d ++ post) ∧
    (detail = none → ∀ g, jsOrElse detail g = g) := by
  refine ⟨?_, ?_, ?_, ?_⟩
  · simp [analyzePOST, jsFalsy, hu, forward]
  · simp [convertPOST, jsFalsy, hb, forward]
  · rintro d g rfl
    cases he : d.isEmpty with
    | true =>
        rw [String.isEmpty_iff] at he
        subst he
        exact ⟨"Internal server error: " ++ jsOrElse (some "") g, "",
          by simp [String.append_empty]⟩
    | false =>
        refine ⟨"Internal server error: ", "", ?_⟩
        simp [jsOrElse, he, String.append_empty]
  · rintro rfl g
    rfl

theorem upstream_error_witness :
    (analyzePOST "http://localhost:8000"
        (.parsed ⟨some "https://github.com/acme/widgets"⟩)
        (.httpError (some "repo not found"))).response =
      ⟨500, .errorEnvelope "Internal server error: repo not found"⟩ ∧
    (convertPOST "http://localhost:8000" (.parsed ⟨some "blog text", none⟩)
        (.httpError none)).response =
      ⟨500, .errorEnvelope "Internal server error: Failed to convert blog to thread"⟩ := by
  have h1 := upstream_error_maps_to_500_with_detail "http://localhost:8000"
    "https://github.com/acme/widgets" "blog text" none (some "repo not found")
    (by decide) (by decide)
  have h2 := upstream_error_maps_to_500_with_detail "http://localhost:8000"
    "https://github.com/acme/widgets" "blog text" none none
    (by decide) (by decide)
  exact ⟨h1.1, h2.2.1⟩

/-- C9: the creation handlers translate field names on the forwarded
call: repoUrl is sent as repo_url to apiUrl/analyze, and blog and
numTweets are sent as blog_content and num_tweets to apiUrl/convert,
where num_tweets is 14 when numTweets is absent and the given value when
it is a non-zero number. -/
theorem creation_forwarding_translates_fields (apiUrl u b : String)
    (nt : Option Int) (upA upC : UpstreamResult)
    (hu : u.isEmpty = false) (hb : b.isEmpty = false) :
    (analyzePOST apiUrl (.parsed ⟨some u⟩) upA).outboundCalls =
      [⟨apiUrl ++ "/analyze", .analyzeBody u⟩] ∧
    (convertPOST apiUrl (.parsed ⟨some b, nt⟩) upC).outboundCalls =
      [⟨apiUrl ++ "/convert", .convertBody b (jsOrInt nt 14)⟩] ∧
    jsOrInt none 14 = 14 ∧
    (∀ n : Int, n ≠ 0 → jsOrInt (some n) 14 = n) := by
  refine ⟨?_, ?_, rfl, ?_⟩
  · simp [analyzePOST, jsFalsy, hu, forward_calls, jsShow]
  · simp [convertPOST, jsFalsy, hb, forward_calls, jsShow]
  · intro n hn
    simp [jsOrInt, hn]

theorem creation_forwarding_witness :
    (analyzePOST "http://localhost:8000"
        (.parsed ⟨some "https://github.com/acme/widgets"⟩)
        (.ok "{}")).outboundCalls =
      [⟨"http://localhost:8000/analyze",
        .analyzeBody "https://github.com/acme/widgets"⟩] ∧
    (convertPOST "http://localhost:8000" (.parsed ⟨some "blog text", some 7⟩)
        (.ok "{}")).outboundCalls =
      [⟨"http://localhost:8000/convert", .convertBody "blog text" 7⟩] := by
  have h := creation_forwarding_translates_fields "http://localhost:8000"
    "https://github.com/acme/widgets" "blog text" (some 7) (.ok "{}") (.ok "{}")
    (by decide) (by decide)
  refine ⟨h.1, ?_⟩
  have h7 : jsOrInt (some 7) 14 = 7 := h.2.2.2 7 (by decide)
  rw [h.2.1, h7]
  rfl

/-- C10: an explicit numTweets of 0 is falsy in the JS default
expression numTweets || 14, so the handler forwards num_tweets = 14 and
the whole run is identical to one where numTweets was omitted. -/
theorem zero_numTweets_forwards_default (apiUrl b : String)
    (up : UpstreamResult) (hb : b.isEmpty = false) :
    convertPOST apiUrl (.parsed ⟨some b, some 0⟩) up =
      convertPOST apiUrl (.parsed ⟨some b, none⟩) up ∧
    (convertPOST apiUrl (.parsed ⟨some b, some 0⟩) up).outboundCalls =
      [⟨apiUrl ++ "/convert", .convertBody b 14⟩] := by
  constructor
  · simp [convertPOST, jsFalsy, hb, jsOrInt]
  · simp [convertPOST, jsFalsy, hb, jsOrInt, forward_calls, jsShow]

theorem zero_numTweets_witness :
    convertPOST "http://localhost:8000" (.parsed ⟨some "blog text", some 0⟩)
        (.ok "{}") =
      convertPOST "http://localhost:8000" (.parsed ⟨some "blog text", none⟩)
        (.ok "{}") ∧
    (convertPOST "http://localhost:8000" (.parsed ⟨some "blog text", some 0⟩)
        (.ok "{}")).outboundCalls =
      [⟨"http://localhost:8000/convert", .convertBody "blog text" 14⟩] :=
  zero_numTweets_forwards_default "http://localhost:8000" "blog text"
    (.ok "{}") (by decide)

/-- C1 counterexample: the claim says a timed-out outbound call makes the
creation handler answer HTTP 504; but the handlers install no timeout and
no timer at all, so a timeout surfaces as a rejected fetch and takes the
generic catch path: at this concrete input the status is 500, not 504. -/
theorem timeout_gives_500_not_504 :
    (analyzePOST "http://localhost:8000"
        (.parsed ⟨some "https://github.com/acme/widgets"⟩)
        (.reject "The operation timed out")).response.status = 500 ∧
    ¬ ((analyzePOST "http://localhost:8000"
        (.parsed ⟨some "https://github.com/acme/widgets"⟩)
        (.reject "The operation timed out")).response.status = 504) := by
  decide

/-- C1 amended: the creation handlers set no timeout and create no timer
on the outbound call; when the call fails (including a runtime timeout
surfacing as a rejected fetch with some message), they answer HTTP 500
with Internal server error: plus that message, and no input whatsoever
produces a 504 response. -/
theorem no_timeout_path_in_creation_handlers (apiUrl u b msg : String)
    (nt : Option Int) (hu : u.isEmpty = false) (hb : b.isEmpty = false) :
    analyzePOST apiUrl (.parsed ⟨some u⟩) (.reject msg) =
      ⟨⟨500, .errorEnvelope ("Internal server error: " ++ msg)⟩,
        [⟨apiUrl ++ "/analyze", .analyzeBody u⟩]⟩ ∧
    convertPOST apiUrl (.parsed ⟨some b, nt⟩) (.reject msg) =
      ⟨⟨500, .errorEnvelope ("Internal server error: " ++ msg)⟩,
        [⟨apiUrl ++ "/convert", .convertBody b (jsOrInt nt 14)⟩]⟩ ∧
    (∀ (inb : Inbound AnalyzeBody) (up : UpstreamResult),
      (analyzePOST apiUrl inb up).response.status ≠ 504) ∧
    (∀ (inb : Inbound ConvertBody) (up : UpstreamResult),
      (convertPOST apiUrl inb up).response.status ≠ 504) := by
  refine ⟨?_, ?_, ?_, ?_⟩
  · simp [analyzePOST, jsFalsy, hu, forward, jsShow]
  · simp [convertPOST, jsFalsy, hb, forward, jsShow]
  · intro inb up
    cases inb with
    | badJson m => simp [analyzePOST]
    | parsed body =>
        cases h : jsFalsy body.repoUrl with
        | true => simp [analyzePOST, h]
        | false => cases up <;> simp [analyzePOST, h, forward]
  · intro inb up
    cases inb with
    | badJson m => simp [convertPOST]
    | parsed body =>
        cases h : jsFalsy body.blog with
        | true => simp [convertPOST, h]
        | false => cases up <;> simp [convertPOST, h, forward]

theorem no_timeout_path_witness :
    analyzePOST "http://localhost:8000"
        (.parsed ⟨some "https://github.com/acme/widgets"⟩)
        (.reject "network down") =
      ⟨⟨500, .errorEnvelope "Internal server error: network down"⟩,
        [⟨"http://localhost:8000/analyze",
          .analyzeBody "https://github.com/acme/widgets"⟩]⟩ :=
  (no_timeout_path_in_creation_handlers "http://localhost:8000"
    "https://github.com/acme/widgets" "blog text" "network down" none
    (by decide) (by decide)).1

/-! ## Theorems about the client-side poller -/

/-- One poll iteration registers at most one follow-up callback. -/
theorem pollSchedLen (s : ClientState) (id : String) (kind : OpKind)
    (o : StatusQueryOutcome) : (pollJobStatus s id kind o).2.length ≤ 1 := by
  cases o with
  | reject msg => simp [pollJobStatus]
  | resp ok body =>
      cases ok with
      | false => simp [pollJobStatus]
      | true =>
          simp only [pollJobStatus]
          split_ifs <;> simp

/-- A poll iteration registers a follow-up callback only when the status
query reported a pending job. -/
theorem pollSchedPending (s : ClientState) (id : String) (kind : OpKind)
    (o : StatusQueryOutcome) :
    (pollJobStatus s id kind o).2 ≠ [] → isPendingOutcome o = true := by
  cases o with
  | reject msg => simp [pollJobStatus]
  | resp ok body =>
      cases ok with
      | false => simp [pollJobStatus]
      | true =>
          simp only [pollJobStatus, isPendingOutcome]
          split_ifs with h1 h2
          · simp
          · simp [h2]
          · simp

/-- C4 counterexample: submit job jobA, observe it pending (which
schedules a follow-up poll), then submit job jobB; the follow-up poll for
jobA is still scheduled, and when it fires with a completed status its
stale payload is written into the blog state and the fresh jobId jobB is
wiped — the stale response is applied even though a new submission had
begun. -/
theorem stale_poll_applied_counterexample :
    (handleSubmit
        (runScheduled (handleSubmit ⟨initialState, []⟩ (.ok "jobA")) 0
          (.resp true ⟨some "pending", none, none⟩))
        (.ok "jobB")).scheduled =
      [⟨5000, "jobA", .analyze⟩, ⟨0, "jobB", .analyze⟩] ∧
    (handleSubmit
        (runScheduled (handleSubmit ⟨initialState, []⟩ (.ok "jobA")) 0
          (.resp true ⟨some "pending", none, none⟩))
        (.ok "jobB")).client.jobId = "jobB" ∧
    (runScheduled
        (handleSubmit
          (runScheduled (handleSubmit ⟨initialState, []⟩ (.ok "jobA")) 0
            (.resp true ⟨some "pending", none, none⟩))
          (.ok "jobB")) 0
        (.resp true ⟨some "completed", some "stale blog from jobA", none⟩)
      ).client.blog = some "stale blog from jobA" ∧
    (runScheduled
        (handleSubmit
          (runScheduled (handleSubmit ⟨initialState, []⟩ (.ok "jobA")) 0
            (.resp true ⟨some "pending", none, none⟩))
          (.ok "jobB")) 0
        (.resp true ⟨some "completed", some "stale blog from jobA", none⟩)
      ).client.jobId = "" := by
  refine ⟨rfl, rfl, rfl, rfl⟩

/-- C4 amended: each poll iteration registers at most one follow-up, so
iterations of one chain are sequential; but a new submission does not
cancel a previously registered poll — handleSubmit leaves the scheduled
queue intact and only appends its own first poll — and when a stale
scheduled poll later fires with a completed status, its result payload is
applied to the blog state regardless of which job is current. -/
theorem poll_chain_not_cancelled_by_submit :
    (∀ (s : ClientState) (id : String) (kind : OpKind)
        (o : StatusQueryOutcome), (pollJobStatus s id kind o).2.length ≤ 1) ∧
    (∀ (w : World) (j : String),
      (handleSubmit w (.ok j)).scheduled = w.scheduled ++ [⟨0, j, .analyze⟩]) ∧
    (∀ (c : ClientState) (rest : List ScheduledPoll) (t : ScheduledPoll)
        (b : StatusBody), b.status = some "completed" → t.kind = .analyze →
      (runScheduled ⟨c, t :: rest⟩ 0 (.resp true b)).client.blog = b.result) := by
  refine ⟨pollSchedLen, fun w j => rfl, ?_⟩
  intro c rest t b hb hk
  simp [runScheduled, pollJobStatus, hb, hk]

theorem poll_chain_not_cancelled_witness :
    (runScheduled ⟨initialState, [⟨5000, "jobA", .analyze⟩]⟩ 0
        (.resp true ⟨some "completed", some "result A", none⟩)).client.blog =
      some "result A" :=
  poll_chain_not_cancelled_by_submit.2.2 initialState []
    ⟨5000, "jobA", .analyze⟩ ⟨some "completed", some "result A", none⟩ rfl rfl

/-- C5: when the status queries of a chain report pending some number of
times and then completed, the poller stores the result payload exactly
once (into blog for analyze, thread for convert), issues exactly one
query per outcome, ends with loading off, progress cleared and jobId
cleared, and the completed iteration registers no further poll. -/
theorem completed_emits_result_once (s : ClientState) (id : String)
    (kind : OpKind) (pre : List StatusQueryOutcome) (b : StatusBody)
    (hpre : ∀ o ∈ pre, isPendingOutcome o = true)
    (hb : b.status = some "completed") :
    (pollChain s id kind (pre ++ [.resp true b])).2.2 = 1 ∧
    (pollChain s id kind (pre ++ [.resp true b])).2.1 = pre.length + 1 ∧
    (pollChain s id kind (pre ++ [.resp true b])).1.loading = false ∧
    (pollChain s id kind (pre ++ [.resp true b])).1.progress = "" ∧
    (pollChain s id kind (pre ++ [.resp true b])).1.jobId = "" ∧
    (kind = .analyze →
      (pollChain s id kind (pre ++ [.resp true b])).1.blog = b.result) ∧
    (kind = .convert →
      (pollChain s id kind (pre ++ [.resp true b])).1.thread = b.result) ∧
    (∀ s2, (pollJobStatus s2 id kind (.resp true b)).2 = []) := by
  induction pre generalizing s with
  | nil =>
      cases kind <;>
        simp [pollChain, pollJobStatus, isCompletedOutcome, hb]
  | cons o os ih =>
      have ho := hpre o (List.mem_cons_self o os)
      have hrest : ∀ o2 ∈ os, isPendingOutcome o2 = true :=
        fun o2 h2 => hpre o2 (List.mem_cons_of_mem o h2)
      cases o with
      | reject msg => simp [isPendingOutcome] at ho
      | resp ok body =>
          cases ok with
          | false => simp [isPendingOutcome] at ho
          | true =>
              have hstat : body.status = some "pending" := by
                simpa [isPendingOutcome] using ho
              have H := ih { s with progress := progressLabel kind } hrest
              simp only [List.cons_append, pollChain, pollJobStatus, hstat,
                isCompletedOutcome]
              simp only [pollChain, pollJobStatus] at H
              simp [H.1, H.2.1, H.2.2.1, H.2.2.2.1, H.2.2.2.2.1,
                H.2.2.2.2.2.2.2]
              exact ⟨H.2.2.2.2.2.1, H.2.2.2.2.2.2.1⟩

theorem completed_emits_witness :
    (pollChain initialState "job1" .analyze
        [.resp true ⟨some "pending", none, none⟩,
         .resp true ⟨some "completed", some "the blog", none⟩]).2.2 = 1 ∧
    (pollChain initialState "job1" .analyze
        [.resp true ⟨some "pending", none, none⟩,
         .resp true ⟨some "completed", some "the blog", none⟩]).2.1 = 2 ∧
    (pollChain initialState "job1" .analyze
        [.resp true ⟨some "pending", none, none⟩,
         .resp true ⟨some "completed", some "the blog", none⟩]).1.blog =
      some "the blog" := by
  have h := completed_emits_result_once initialState "job1" .analyze
    [.resp true ⟨some "pending", none, none⟩]
    ⟨some "completed", some "the blog", none⟩
    (by intro o ho; rw [List.mem_singleton] at ho; subst ho; decide) rfl
  exact ⟨h.1, h.2.1, h.2.2.2.2.2.1 rfl⟩

/-- C6: when a status query reports a pending job, the iteration writes
the progress label of its operation kind (Analyzing repository... for
analyze, Converting to thread... for convert), changes nothing else, and
registers exactly one follow-up poll for the same job and kind with the
fixed 5000 ms delay; and no iteration ever registers more than one
follow-up, so the iterations of a chain are strictly sequential. -/
theorem pending_schedules_single_followup (s : ClientState) (id : String)
    (kind : OpKind) (b : StatusBody) (hb : b.status = some "pending") :
    pollJobStatus s id kind (.resp true b) =
      ({ s with progress := progressLabel kind }, [⟨5000, id, kind⟩]) ∧
    progressLabel .analyze = "Analyzing repository..." ∧
    progressLabel .convert = "Converting to thread..." ∧
    (∀ (s2 : ClientState) (o : StatusQueryOutcome),
      (pollJobStatus s2 id kind o).2.length ≤ 1) := by
  refine ⟨?_, rfl, rfl, fun s2 o => pollSchedLen s2 id kind o⟩
  simp [pollJobStatus, hb]

theorem pending_schedules_witness :
    pollJobStatus initialState "job1" .analyze
        (.resp true ⟨some "pending", none, none⟩) =
      ({ initialState with progress := "Analyzing repository..." },
        [⟨5000, "job1", .analyze⟩]) :=
  (pending_schedules_single_followup initialState "job1" .analyze
      ⟨some "pending", none, none⟩ rfl).1

/-- C7: when the status query rejects, or answers non-2xx, or reports a
status other than completed and pending, the iteration is terminal: the
state becomes the catch-block state (loading off, progress cleared, an
error message surfaced, jobId cleared) and no follow-up poll is
registered; and a follow-up is ever registered only for a pending
outcome, so only the pending state is retried. -/
theorem failing_status_terminal (s : ClientState) (id : String)
    (kind : OpKind) (o : StatusQueryOutcome)
    (h : (∃ msg, o = .reject msg) ∨ (∃ b, o = .resp false b) ∨
      (∃ b, o = .resp true b ∧
        b.status ≠ some "completed" ∧ b.status ≠ some "pending")) :
    (∃ msg, pollJobStatus s id kind o =
      ({ s with
         loading := false, progress := "", error := msg, jobId := "" }, [])) ∧
    (∀ o2, (pollJobStatus s id kind o2).2 ≠ [] →
      isPendingOutcome o2 = true) := by
  refine ⟨?_, fun o2 => pollSchedPending s id kind o2⟩
  rcases h with ⟨msg, rfl⟩ | ⟨b, rfl⟩ | ⟨b, rfl, hc, hp⟩
  · exact ⟨msg, rfl⟩
  · exact ⟨jsOrElse b.error "Failed to get job status", rfl⟩
  · refine ⟨"Job failed: " ++ jsShow b.result, ?_⟩
    simp only [pollJobStatus]
    rw [if_neg hc, if_neg hp]
    rfl

theorem failing_status_witness :
    ∃ msg, pollJobStatus initialState "job1" .convert
        (.resp true ⟨some "failed", some "boom", none⟩) =
      ({ initialState with
         loading := false, progress := "", error := msg, jobId := "" }, []) :=
  (failing_status_terminal initialState "job1" .convert
      (.resp true ⟨some "failed", some "boom", none⟩)
      (Or.inr (Or.inr ⟨⟨some "failed", some "boom", none⟩, rfl,
        by decide, by decide⟩))).1

end RepoThread
